import Mathlib

/-!
Shallow embedding of the flyctl log-shipping setup fragment
(`internal/command/logs` plus the small `gql` helpers).

Remote collaborators (the GraphQL client, the flaps machine client, the
prompt, and the deployment engine) are modelled by an oracle structure
`Remote`: each field gives the Go multi-value return `(value, err)` of one
remote call.  Each embedded function returns its Go result together with
the ordered list of remote calls it issued, so that claims of the form
"issues no create mutation" are statements about that trace.
-/

namespace LogShip

/-- Go `error` values as seen by this fragment: either a `gqlerror.List`
(the only dynamic type the code tests for), a wrapping error whose
`errors.Unwrap` yields the inner error, or a leaf error with no unwrap. -/
inductive GoError where
  | gqlList (msgs : List String)
  | wrapped (msg : String) (inner : GoError)
  | base (msg : String)

/-- `errors.Unwrap`: only wrapping errors unwrap; `gqlerror.List` and leaf
errors yield nil. -/
def GoError.unwrap : GoError → Option GoError
  | .wrapped _ inner => some inner
  | _ => none

/-- The type assertion `err.(gqlerror.List)` succeeds exactly on a list. -/
def GoError.isList : GoError → Bool
  | .gqlList _ => true
  | _ => false

/-- `err.Error()`: the message carried by the error value. -/
def GoError.message : GoError → String
  | .base m => m
  | .wrapped m _ => m
  | .gqlList ms => String.intercalate "; " ms

/-- Whether some error in the unwrap chain is a `gqlerror.List`; the
condition under which the unwrap loop of `ProvisionAutoShipper` reaches its
create branch. -/
def containsList : GoError → Bool
  | .gqlList _ => true
  | .wrapped _ inner => containsList inner
  | .base _ => false

/-- Whether `pat` is a leading segment of `s` (character lists). -/
def listStartsWith : List Char → List Char → Bool
  | _, [] => true
  | [], _ :: _ => false
  | a :: as, b :: bs => a == b && listStartsWith as bs

/-- Whether `pat` occurs inside `s` (character lists); the semantics of
Go `strings.Contains`. -/
def listContainsSub : List Char → List Char → Bool
  | [], pat => pat.isEmpty
  | s@(_ :: as), pat => listStartsWith s pat || listContainsSub as pat

/-- `gql.IsErrorNotFound`: `strings.Contains(err.Error(), "not find")`. -/
def IsErrorNotFound (e : GoError) : Bool :=
  listContainsSub e.message.data "not find".data

structure Organization where
  Id : String
  Slug : String
  RawSlug : String

structure AppData where
  Id : String
  Name : String
  Organization : Organization

structure OrganizationBasic where
  Slug : String

structure AppCompact where
  Name : String
  Organization : OrganizationBasic

/-- `gql.ToAppCompact`: keep only the two fields flaps needs. -/
def ToAppCompact (app : AppData) : AppCompact :=
  { Name := app.Name, Organization := { Slug := app.Organization.Slug } }

/-- Modelled from the spec: the genqlient `AddOnType` string enum is not in
the provided sources; its constant for the logtail provider. -/
def AddOnTypeLogtail : String := "logtail"

/-- Modelled from the spec: the genqlient `AddOnType` constant for the
upstash redis provider (enum source not provided). -/
def AddOnTypeUpstashRedis : String := "upstash_redis"

/-- The slug-to-type table `gql.AddOnTypes`, as an association list. -/
def AddOnTypes : List (String × String) :=
  [("logtail", AddOnTypeLogtail), ("upstash_redis", AddOnTypeUpstashRedis)]

/-- Go map indexing: the value for the key, or the zero value `""` when the
key is absent. -/
def goMapIndex (m : List (String × String)) (k : String) : String :=
  match m.find? (fun p => p.1 == k) with
  | some p => p.2
  | none => ""

structure CreateAddOnInput where
  OrganizationId : String
  Name : String
  AppId : String
  «Type» : String

structure CreateAppInput where
  Machines : Bool
  OrganizationId : String
  AppRoleId : String
  Name : String

structure MachineGuest where
  CPUKind : String
  CPUs : Nat
  MemoryMB : Nat

structure MachineConfig where
  Guest : MachineGuest
  Image : String
  Metadata : List (String × String)

structure LaunchMachineInput where
  Name : String
  Config : MachineConfig
  Region : String

structure SecretInput where
  Key : String
  Value : String

structure SetSecretsInput where
  AppId : String
  Secrets : List SecretInput

structure MachineDeploymentArgs where
  AppCompact : AppCompact
  RestartOnly : Bool
  SkipHealthChecks : Bool

structure Machine where
  Id : String

/-- The add-on data read off a `GetAddOn` response. -/
structure AddOnData where
  Token : String
  Organization : Organization

structure GetAddOnResponse where
  AddOn : AddOnData

/-- Modelled from the spec: the platform-version metadata key from the
`api` package (its source is not provided). -/
def MachineConfigMetadataKeyFlyPlatformVersion : String := "fly_platform_version"

/-- Modelled from the spec: the platform-version marker value from the
`api` package (its source is not provided). -/
def MachineFlyPlatformVersion2 : String := "v2"

/-- Modelled from the spec: the managed-postgres metadata key from the
`api` package (its source is not provided). -/
def MachineConfigMetadataKeyFlyManagedPostgres : String := "fly-managed-postgres"

/-- One remote call issued by the workflow, with the payload it carried. -/
inductive Call where
  | getApp (name : String)
  | promptSelect
  | getAddOn (name : String)
  | createAddOn (input : CreateAddOnInput)
  | getAppsByRole (role : String) (orgId : String)
  | createApp (input : CreateAppInput)
  | flapsNew (app : AppCompact)
  | flapsList (appName : String)
  | getNearestRegion
  | launch (input : LaunchMachineInput)
  | createLimitedAccessToken (name orgId scope arg4 arg5 : String)
  | setSecrets (input : SetSecretsInput)
  | newMachineDeployment (args : MachineDeploymentArgs)
  | deployMachinesApp (appName : String)

def Call.isCreateAddOn : Call → Bool
  | .createAddOn _ => true
  | _ => false

def Call.isCreateApp : Call → Bool
  | .createApp _ => true
  | _ => false

def Call.isLaunch : Call → Bool
  | .launch _ => true
  | _ => false

def Call.isGetNearestRegion : Call → Bool
  | .getNearestRegion => true
  | _ => false

def Call.isCreateLimitedAccessToken : Call → Bool
  | .createLimitedAccessToken _ _ _ _ _ => true
  | _ => false

def Call.isSetSecrets : Call → Bool
  | .setSecrets _ => true
  | _ => false

/-- The `Name` field submitted by a create-add-on call, when the call is
one. -/
def Call.createAddOnName : Call → Option String
  | .createAddOn input => some input.Name
  | _ => none

/-- The oracle for the remote collaborators: every field returns the Go
multi-value result `(value, err)` of one call (or just the error when the
value is unused by the fragment). -/
structure Remote where
  getApp : String → AppData × Option GoError
  promptSelect : List String → Nat × Option GoError
  getAddOn : String → GetAddOnResponse × Option GoError
  createAddOn : CreateAddOnInput → String × Option GoError
  getAppsByRole : String → String → List AppData × Option GoError
  createApp : CreateAppInput → AppData × Option GoError
  flapsNew : AppCompact → Option GoError
  flapsList : String → List Machine × Option GoError
  getNearestRegion : String × Option GoError
  launch : LaunchMachineInput → Option GoError
  createLimitedAccessToken : String → String → String → String → String → String × Option GoError
  setSecrets : SetSecretsInput → Option GoError
  newMachineDeployment : MachineDeploymentArgs → Option GoError
  deployMachinesApp : String → Option GoError

/-- Outcome of the `for err != nil` unwrap loop in `ProvisionAutoShipper`. -/
inductive LoopResult where
  | created (token : String)
  | createFailed (e : GoError)
  | exhausted

/-- The `for err != nil` loop body of `ProvisionAutoShipper`: if the current
error is a `gqlerror.List`, issue the create mutation (its shadowed error
aborts the function, otherwise the created token is kept and the loop
breaks); any other error is unwrapped and the loop continues, exiting with
a nil error once the unwrap chain is exhausted. -/
def unwrapLoop (remote : Remote) (input : CreateAddOnInput) : GoError → LoopResult × List Call
  | .gqlList _ =>
    match (remote.createAddOn input).2 with
    | some ce => (.createFailed ce, [Call.createAddOn input])
    | none => (.created (remote.createAddOn input).1, [Call.createAddOn input])
  | .wrapped _ inner => unwrapLoop remote input inner
  | .base _ => (.exhausted, [])

/-- `ProvisionAutoShipper(ctx, targetApp, provider)`: look up the add-on
named `targetApp.Name + "-log-shipper"`; on a nil lookup error reuse its
token; on a lookup error run the unwrap loop.  Note the source returns
`token, nil` on every path except a failed create mutation. -/
def ProvisionAutoShipper (remote : Remote) (targetApp : AppData) (provider : String) :
    (String × Option GoError) × List Call :=
  let addOnName := targetApp.Name ++ "-log-shipper"
  let g := remote.getAddOn addOnName
  match g.2 with
  | none => ((g.1.AddOn.Token, none), [Call.getAddOn addOnName])
  | some e =>
    let input : CreateAddOnInput :=
      { OrganizationId := targetApp.Organization.Id, Name := addOnName,
        AppId := targetApp.Id, «Type» := goMapIndex AddOnTypes provider }
    match unwrapLoop remote input e with
    | (.createFailed ce, cs) => (("", some ce), Call.getAddOn addOnName :: cs)
    | (.created tok, cs) => ((tok, none), Call.getAddOn addOnName :: cs)
    | (.exhausted, cs) => ((g.1.AddOn.Token, none), Call.getAddOn addOnName :: cs)

/-- `LoggerAppName(prefix)`. -/
def LoggerAppName (pfx : String) : String :=
  pfx ++ "-auto-log-shipper"

/-- `LoggerAddOnName(appName, provider)` (unused by the workflow). -/
def LoggerAddOnName (appName : String) (provider : String) : String :=
  appName ++ "-" ++ provider

/-- `EnsureShipperMachine(ctx, shipperApp)`: build a flaps client, list the
machines, and when none exist launch one with the fixed config in the
nearest region. -/
def EnsureShipperMachine (remote : Remote) (shipperApp : AppData) : Option GoError × List Call :=
  let compact := ToAppCompact shipperApp
  match remote.flapsNew compact with
  | some e => (some e, [Call.flapsNew compact])
  | none =>
    let ml := remote.flapsList shipperApp.Name
    match ml.2 with
    | some e => (some e, [Call.flapsNew compact, Call.flapsList shipperApp.Name])
    | none =>
      if ml.1.length > 0 then
        (none, [Call.flapsNew compact, Call.flapsList shipperApp.Name])
      else
        let machineConf : MachineConfig :=
          { Guest := { CPUKind := "shared", CPUs := 1, MemoryMB := 256 },
            Image := "flyio/log-shipper:auto-a14aa63",
            Metadata := [(MachineConfigMetadataKeyFlyPlatformVersion, MachineFlyPlatformVersion2),
                         (MachineConfigMetadataKeyFlyManagedPostgres, "true"),
                         ("managed-by-fly-deploy", "true")] }
        let r := remote.getNearestRegion
        match r.2 with
        | some e =>
          (some e, [Call.flapsNew compact, Call.flapsList shipperApp.Name, Call.getNearestRegion])
        | none =>
          let launchInput : LaunchMachineInput :=
            { Name := "log-shipper", Config := machineConf, Region := r.1 }
          match remote.launch launchInput with
          | some e =>
            (some e, [Call.flapsNew compact, Call.flapsList shipperApp.Name,
                      Call.getNearestRegion, Call.launch launchInput])
          | none =>
            (none, [Call.flapsNew compact, Call.flapsList shipperApp.Name,
                    Call.getNearestRegion, Call.launch launchInput])

/-- `EnsureShipperApp(ctx, targetOrg)`: query apps by the log-shipper role;
reuse the first result, otherwise create the app and immediately ensure it
has a machine. -/
def EnsureShipperApp (remote : Remote) (targetOrg : Organization) :
    Except GoError AppData × List Call :=
  let r := remote.getAppsByRole "log-shipper" targetOrg.Id
  match r.2 with
  | some e => (.error e, [Call.getAppsByRole "log-shipper" targetOrg.Id])
  | none =>
    match r.1 with
    | a :: _ => (.ok a, [Call.getAppsByRole "log-shipper" targetOrg.Id])
    | [] =>
      let input : CreateAppInput :=
        { Machines := true, OrganizationId := targetOrg.Id,
          AppRoleId := "log-shipper", Name := LoggerAppName targetOrg.RawSlug }
      let c := remote.createApp input
      match c.2 with
      | some e =>
        (.error e, [Call.getAppsByRole "log-shipper" targetOrg.Id, Call.createApp input])
      | none =>
        let em := EnsureShipperMachine remote c.1
        match em.1 with
        | some e =>
          (.error e,
           Call.getAppsByRole "log-shipper" targetOrg.Id :: Call.createApp input :: em.2)
        | none =>
          (.ok c.1,
           Call.getAppsByRole "log-shipper" targetOrg.Id :: Call.createApp input :: em.2)

/-- `SetNatsTokenSecret(ctx, shipperApp)`: create the scoped access token,
write it as the `NATS_TOKEN` secret (the source discards the result of that
mutation), and trigger a restart-only redeploy. -/
def SetNatsTokenSecret (remote : Remote) (shipperApp : AppData) : Option GoError × List Call :=
  let tokenName := shipperApp.Organization.Slug ++ "-logs"
  let t := remote.createLimitedAccessToken tokenName shipperApp.Organization.Id
            "read_organization_apps" "" ""
  let cLat := Call.createLimitedAccessToken tokenName shipperApp.Organization.Id
                "read_organization_apps" "" ""
  match t.2 with
  | some e => (some e, [cLat])
  | none =>
    let secretsInput : SetSecretsInput :=
      { AppId := shipperApp.Id, Secrets := [{ Key := "NATS_TOKEN", Value := t.1 }] }
    -- the source calls gql.SetSecrets as a bare statement; its result is dropped
    let _ := remote.setSecrets secretsInput
    let args : MachineDeploymentArgs :=
      { AppCompact := ToAppCompact shipperApp, RestartOnly := true, SkipHealthChecks := true }
    match remote.newMachineDeployment args with
    | some e =>
      (some e, [cLat, Call.setSecrets secretsInput, Call.newMachineDeployment args])
    | none =>
      (remote.deployMachinesApp shipperApp.Name,
       [cLat, Call.setSecrets secretsInput, Call.newMachineDeployment args,
        Call.deployMachinesApp shipperApp.Name])

/-- The static provider registry. -/
structure Provider where
  Slug : String
  Name : String
  Auto : Bool
  RequriedVars : List String
  OptionalVars : List String

def providers : List Provider :=
  [{ Slug := "aws_s3", Name := "AWS S3", Auto := false,
     RequriedVars := ["AWS_BUCKET", "AWS_REGION", "AWS_ACCESS_KEY_ID", "AWS_SECRET_ACCESS_KEY"],
     OptionalVars := ["S3_ENDPOINT"] },
   { Slug := "axiom", Name := "Axiom", Auto := false,
     RequriedVars := ["AXIOM_TOKEN", "AXIOM_DATASET"], OptionalVars := [] },
   { Slug := "datadog", Name := "Datadog", Auto := false,
     RequriedVars := ["DATADOG_API_KEY"], OptionalVars := ["DATADOG_SITE"] },
   { Slug := "erasearch", Name := "Erasearch", Auto := false,
     RequriedVars := ["ERASEARCH_URL", "ERASEARCH_INDEX", "ERASEARCH_AUTH"], OptionalVars := [] },
   { Slug := "honeycomb", Name := "Honeycomb", Auto := false,
     RequriedVars := ["HONEYCOMB_API_KEY", "HONEYCOMB_DATASET"], OptionalVars := [] },
   { Slug := "http", Name := "HTTP", Auto := false,
     RequriedVars := ["HTTP_URL", "HTTP_TOKEN"], OptionalVars := [] },
   { Slug := "humio", Name := "Humio", Auto := false,
     RequriedVars := ["HUMIO_TOKEN"], OptionalVars := [] },
   { Slug := "mezmo", Name := "Mezmo", Auto := false,
     RequriedVars := ["MEZMO_API_KEY"], OptionalVars := [] },
   { Slug := "logflare", Name := "Logflare", Auto := false,
     RequriedVars := ["LOGFLARE_API_KEY", "LOGFLARE_SOURCE_TOKEN"], OptionalVars := [] },
   { Slug := "logtail", Name := "Logtail", Auto := true,
     RequriedVars := [], OptionalVars := [] },
   { Slug := "loki", Name := "Loki", Auto := false,
     RequriedVars := ["LOKI_URL", "LOKI_USERNAME", "LOKI_PASSWORD"], OptionalVars := [] },
   { Slug := "new_relic", Name := "New Relic", Auto := false,
     RequriedVars := ["NEW_RELIC_REGION", "NEW_RELIC_ACCOUNT_ID"],
     OptionalVars := ["NEW_RELIC_LICENSE_KEY", "NEW_RELIC_INSERT_KEY"] },
   { Slug := "papertrail", Name := "Papertrail", Auto := false,
     RequriedVars := ["PAPERTRAIL_ENDPOINT"], OptionalVars := ["PAPERTRAIL_ENCODING_CODEC"] },
   { Slug := "sematext", Name := "Sematext", Auto := false,
     RequriedVars := ["SEMATEXT_REGION", "SEMATEXT_TOKEN"], OptionalVars := [] },
   { Slug := "uptrace", Name := "Uptrace", Auto := false,
     RequriedVars := ["UPTRACE_API_KEY", "UPTRACE_PROJECT"],
     OptionalVars := ["UPTRACE_SINK_INPUT", "UPTRACE_SINK_ENCODING"] }]

/-- The zero `Provider` value (Go zero value; only reachable in the model
when the prompt yields an out-of-range index, which the prompt contract
rules out). -/
def zeroProvider : Provider :=
  { Slug := "", Name := "", Auto := false, RequriedVars := [], OptionalVars := [] }

/-- `runSetup(ctx)`: fetch the target app, prompt for a provider, provision
the auto add-on when the provider is automatic (result discarded), resolve
the shipper app, resolve the shipper machine, and call `SetNatsTokenSecret`
(result discarded).  The source never checks `EnsureShipperMachine`'s error
before calling `SetNatsTokenSecret`; the named `err` it returns is the one
left by `EnsureShipperMachine`. -/
def runSetup (remote : Remote) (appName : String) : Option GoError × List Call :=
  let g := remote.getApp appName
  match g.2 with
  | some e => (some e, [Call.getApp appName])
  | none =>
    let targetApp := g.1
    let targetOrg := targetApp.Organization
    let providerOptions := providers.map (fun p => p.Name)
    let sel := remote.promptSelect providerOptions
    match sel.2 with
    | some e => (some e, [Call.getApp appName, Call.promptSelect])
    | none =>
      let chosen := providers.getD sel.1 zeroProvider
      let autoCalls :=
        if chosen.Auto then (ProvisionAutoShipper remote targetApp chosen.Slug).2 else []
      let ea := EnsureShipperApp remote targetOrg
      match ea.1 with
      | .error e =>
        (some e, (Call.getApp appName :: Call.promptSelect :: autoCalls) ++ ea.2)
      | .ok shipperApp =>
        let em := EnsureShipperMachine remote shipperApp
        let sn := SetNatsTokenSecret remote shipperApp
        (em.1, (Call.getApp appName :: Call.promptSelect :: autoCalls) ++ ea.2 ++ em.2 ++ sn.2)

/-! Concrete fixtures: a fully successful oracle and variants pinning one
call each, used to evaluate the embedded functions on closed runs. -/

def orgW : Organization := { Id := "oid", Slug := "oslug", RawSlug := "oraw" }

def appW : AppData := { Id := "aid", Name := "appw", Organization := orgW }

def appB : AppData := { Id := "bid", Name := "oraw-auto-log-shipper", Organization := orgW }

/-- An oracle on which every remote call succeeds. -/
def remoteOk : Remote :=
  { getApp := fun _ => (appW, none),
    promptSelect := fun _ => (0, none),
    getAddOn := fun _ => ({ AddOn := { Token := "existing-token", Organization := orgW } }, none),
    createAddOn := fun _ => ("created-token", none),
    getAppsByRole := fun _ _ => ([appW], none),
    createApp := fun _ => (appW, none),
    flapsNew := fun _ => none,
    flapsList := fun _ => ([{ Id := "m1" }], none),
    getNearestRegion := ("sea", none),
    launch := fun _ => none,
    createLimitedAccessToken := fun _ _ _ _ _ => ("lat-token", none),
    setSecrets := fun _ => none,
    newMachineDeployment := fun _ => none,
    deployMachinesApp := fun _ => none }

/-- No app carries the log-shipper role; creation returns `appB`. -/
def remoteNoApps : Remote :=
  { remoteOk with
    getAppsByRole := fun _ _ => ([], none),
    createApp := fun _ => (appB, none) }

/-- The shipper app has no machines yet. -/
def remoteNoMachines : Remote :=
  { remoteOk with flapsList := fun _ => ([], none) }

/-- The add-on lookup fails with a wrapped leaf error: no `gqlerror.List`
anywhere in the unwrap chain. -/
def remoteWrapped : Remote :=
  { remoteOk with
    getAddOn := fun _ =>
      ({ AddOn := { Token := "stale", Organization := orgW } },
       some (GoError.wrapped "request failed" (GoError.base "timeout"))) }

/-- The machine listing fails after the shipper app is resolved. -/
def c1Remote : Remote :=
  { remoteOk with
    flapsList := fun _ => ([], some (GoError.base "machines list failed")) }

/-- The add-on lookup fails with a plain non-not-found error. -/
def c2Remote : Remote :=
  { remoteOk with
    getAddOn := fun _ =>
      ({ AddOn := { Token := "stale-token", Organization := orgW } },
       some (GoError.base "permission denied")) }

def c3App : AppData :=
  { Id := "appid1", Name := "app1", Organization := { Id := "org1", Slug := "o1", RawSlug := "o1" } }

/-- The add-on lookup fails with a `gqlerror.List` and the create mutation
succeeds. -/
def c3Remote : Remote :=
  { remoteOk with
    getAddOn := fun _ =>
      ({ AddOn := { Token := "", Organization := orgW } },
       some (GoError.gqlList ["Could not find AddOn"])),
    createAddOn := fun _ => ("tok3", none) }

/-- The `SetSecrets` mutation fails; everything else succeeds. -/
def c4Remote : Remote :=
  { remoteOk with setSecrets := fun _ => some (GoError.base "secret write failed") }

/-! Theorems. -/

/-- Helper: an error chain with no `gqlerror.List` makes the unwrap loop
exhaust without issuing any call. -/
theorem unwrapLoop_of_no_list (remote : Remote) :
    ∀ e : GoError, containsList e = false →
      ∀ input : CreateAddOnInput, unwrapLoop remote input e = (LoopResult.exhausted, []) := by
  intro e
  induction e with
  | gqlList msgs => intro h input; simp [containsList] at h
  | wrapped msg inner ih =>
    intro h input
    simp only [containsList] at h
    simpa only [unwrapLoop] using ih h input
  | base msg => intro h input; rfl

/-- Helper: every create mutation the unwrap loop issues carries the
`Name` field of the loop's create input. -/
theorem unwrapLoop_names (remote : Remote) (input : CreateAddOnInput) :
    ∀ e : GoError,
      ((unwrapLoop remote input e).2.filterMap Call.createAddOnName).all
        (fun n => n == input.Name) = true := by
  intro e
  induction e with
  | gqlList msgs =>
    simp only [unwrapLoop]
    split <;> simp [Call.createAddOnName]
  | wrapped msg inner ih => simpa only [unwrapLoop] using ih
  | base msg => rfl

/-- Claim C1 (code bug evaluated on the failing input): in this concrete
run `EnsureShipperMachine` fails with the machine-listing error, `runSetup`
returns exactly that error, and yet `SetNatsTokenSecret` was still invoked
in the same run: its access-token creation call appears in the run's
trace. -/
theorem runSetup_invokes_setNats_after_machine_failure :
    (EnsureShipperMachine c1Remote appW).1 = some (GoError.base "machines list failed") ∧
    (runSetup c1Remote "target").1 = some (GoError.base "machines list failed") ∧
    (runSetup c1Remote "target").2.filter Call.isCreateLimitedAccessToken =
      [Call.createLimitedAccessToken "oslug-logs" "oid" "read_organization_apps" "" ""] :=
  ⟨rfl, rfl, rfl⟩

/-- Claim C2 (code bug evaluated on the failing input): the add-on lookup
fails with the plain error "permission denied", which is not a not-found
error by the repository's own classifier, yet `ProvisionAutoShipper`
returns the stale token with a nil error and issues no create mutation:
the non-not-found error is masked, not surfaced. -/
theorem provisionAutoShipper_masks_non_not_found_error :
    IsErrorNotFound (GoError.base "permission denied") = false ∧
    (c2Remote.getAddOn "appw-log-shipper").2 = some (GoError.base "permission denied") ∧
    (ProvisionAutoShipper c2Remote appW "logtail").1 = ("stale-token", none) ∧
    (ProvisionAutoShipper c2Remote appW "logtail").2.filter Call.isCreateAddOn = [] :=
  ⟨rfl, rfl, rfl, rfl⟩

/-- Claim C3 (code bug evaluated on the failing input): "datadog" is absent
from the slug-to-type table, yet `ProvisionAutoShipper` submits the create
mutation with the map's zero value `""` as the add-on type and reports
success: the type is silently defaulted, and creation is neither rejected
before submission nor failed. -/
theorem provisionAutoShipper_silently_defaults_type :
    AddOnTypes.find? (fun p => p.1 == "datadog") = none ∧
    goMapIndex AddOnTypes "datadog" = "" ∧
    (ProvisionAutoShipper c3Remote c3App "datadog").1 = ("tok3", none) ∧
    (ProvisionAutoShipper c3Remote c3App "datadog").2.filter Call.isCreateAddOn =
      [Call.createAddOn { OrganizationId := "org1", Name := "app1-log-shipper",
                          AppId := "appid1", «Type» := "" }] :=
  ⟨rfl, rfl, rfl, rfl⟩

/-- Claim C4 (code bug evaluated on the failing input): the `SetSecrets`
mutation for the `NATS_TOKEN` secret fails, the secret-write call was
issued, yet `SetNatsTokenSecret` returns a nil error: the secret-write
failure is dropped, not propagated. -/
theorem setNatsTokenSecret_drops_secret_write_failure :
    c4Remote.setSecrets
      { AppId := "aid", Secrets := [{ Key := "NATS_TOKEN", Value := "lat-token" }] } =
      some (GoError.base "secret write failed") ∧
    (SetNatsTokenSecret c4Remote appW).1 = none ∧
    (SetNatsTokenSecret c4Remote appW).2.filter Call.isSetSecrets =
      [Call.setSecrets
        { AppId := "aid", Secrets := [{ Key := "NATS_TOKEN", Value := "lat-token" }] }] :=
  ⟨rfl, rfl, rfl⟩

/-- Claim C5: whenever the add-on lookup by name `<app-name>-log-shipper`
returns without error, `ProvisionAutoShipper` returns the existing add-on's
token with a nil error and its trace is exactly the lookup: no create
mutation is issued. -/
theorem provisionAutoShipper_reuse (remote : Remote) (targetApp : AppData) (provider : String)
    (h : (remote.getAddOn (targetApp.Name ++ "-log-shipper")).2 = none) :
    (ProvisionAutoShipper remote targetApp provider).1 =
      ((remote.getAddOn (targetApp.Name ++ "-log-shipper")).1.AddOn.Token, none) ∧
    (ProvisionAutoShipper remote targetApp provider).2 =
      [Call.getAddOn (targetApp.Name ++ "-log-shipper")] := by
  constructor <;> simp [ProvisionAutoShipper, h]

/-- Witness for claim C5 at a concrete oracle whose lookup succeeds. -/
theorem provisionAutoShipper_reuse_witness :
    (ProvisionAutoShipper remoteOk appW "logtail").1 = ("existing-token", none) ∧
    (ProvisionAutoShipper remoteOk appW "logtail").2 = [Call.getAddOn "appw-log-shipper"] := by
  have h := provisionAutoShipper_reuse remoteOk appW "logtail" rfl
  exact ⟨h.1.trans rfl, h.2.trans rfl⟩

/-- Claim C6: when the flaps client is built and the instance listing
returns at least one machine, `EnsureShipperMachine` returns a nil error
and its trace is exactly the client construction and the listing: no
launch call and no region-discovery call. -/
theorem ensureShipperMachine_idempotent (remote : Remote) (shipperApp : AppData)
    (h1 : remote.flapsNew (ToAppCompact shipperApp) = none)
    (h2 : (remote.flapsList shipperApp.Name).2 = none)
    (h3 : (remote.flapsList shipperApp.Name).1.length > 0) :
    EnsureShipperMachine remote shipperApp =
      (none, [Call.flapsNew (ToAppCompact shipperApp), Call.flapsList shipperApp.Name]) := by
  simp only [EnsureShipperMachine, h1, h2]
  rw [if_pos h3]

/-- Witness for claim C6 at a concrete oracle with one existing machine. -/
theorem ensureShipperMachine_idempotent_witness :
    EnsureShipperMachine remoteOk appW =
      (none, [Call.flapsNew (ToAppCompact appW), Call.flapsList "appw"]) := by
  have h := ensureShipperMachine_idempotent remoteOk appW rfl rfl (by decide)
  exact h

/-- Claim C7: `EnsureShipperApp` returns the first application of a
non-empty role-tag query result, issuing no creation call; on an empty
result it creates the app with machines enabled, the organization id, role
id "log-shipper" and the deterministic name, and then runs
`EnsureShipperMachine` on the created app before returning, its error
gating the result. -/
theorem ensureShipperApp_spec (remote : Remote) (org : Organization) :
    (∀ a rest, remote.getAppsByRole "log-shipper" org.Id = (a :: rest, none) →
      EnsureShipperApp remote org =
        (Except.ok a, [Call.getAppsByRole "log-shipper" org.Id])) ∧
    (remote.getAppsByRole "log-shipper" org.Id = ([], none) →
      ∀ a, remote.createApp
             { Machines := true, OrganizationId := org.Id,
               AppRoleId := "log-shipper", Name := LoggerAppName org.RawSlug } = (a, none) →
        EnsureShipperApp remote org =
          ((match (EnsureShipperMachine remote a).1 with
            | some e => Except.error e
            | none => Except.ok a),
           Call.getAppsByRole "log-shipper" org.Id ::
             Call.createApp
               { Machines := true, OrganizationId := org.Id,
                 AppRoleId := "log-shipper", Name := LoggerAppName org.RawSlug } ::
             (EnsureShipperMachine remote a).2)) := by
  constructor
  · intro a rest h
    simp only [EnsureShipperApp, h]
  · intro h a hc
    simp only [EnsureShipperApp, h, hc]
    split <;> rfl

/-- Witness for claim C7: the reuse branch at an oracle with an existing
role-tagged app, and the creation branch at an oracle with none. -/
theorem ensureShipperApp_spec_witness :
    EnsureShipperApp remoteOk orgW =
      (Except.ok appW, [Call.getAppsByRole "log-shipper" "oid"]) ∧
    EnsureShipperApp remoteNoApps orgW =
      (Except.ok appB,
       [Call.getAppsByRole "log-shipper" "oid",
        Call.createApp
          { Machines := true, OrganizationId := "oid",
            AppRoleId := "log-shipper", Name := "oraw-auto-log-shipper" },
        Call.flapsNew (ToAppCompact appB), Call.flapsList "oraw-auto-log-shipper"]) := by
  constructor
  · exact ((ensureShipperApp_spec remoteOk orgW).1 appW [] rfl).trans rfl
  · exact ((ensureShipperApp_spec remoteNoApps orgW).2 rfl appB rfl).trans rfl

/-- Claim C8: the three naming computations are deterministic
concatenations: the shipper app name is the raw slug followed by
"-auto-log-shipper"; the add-on name used by `ProvisionAutoShipper` is the
target app name followed by "-log-shipper", both for the lookup (its first
issued call) and for every create mutation it submits (the `Name` field of
any issued create-add-on input); and the credential name used by
`SetNatsTokenSecret` is the organization slug followed by "-logs" (its
first issued call). -/
theorem naming_deterministic (pfx : String) (remote : Remote)
    (targetApp shipperApp : AppData) (provider : String) :
    LoggerAppName pfx = pfx ++ "-auto-log-shipper" ∧
    (ProvisionAutoShipper remote targetApp provider).2.head? =
      some (Call.getAddOn (targetApp.Name ++ "-log-shipper")) ∧
    ((ProvisionAutoShipper remote targetApp provider).2.filterMap Call.createAddOnName).all
      (fun n => n == targetApp.Name ++ "-log-shipper") = true ∧
    (SetNatsTokenSecret remote shipperApp).2.head? =
      some (Call.createLimitedAccessToken (shipperApp.Organization.Slug ++ "-logs")
        shipperApp.Organization.Id "read_organization_apps" "" "") := by
  refine ⟨rfl, ?_, ?_, ?_⟩
  · simp only [ProvisionAutoShipper]
    split
    · rfl
    · split <;> rfl
  · simp only [ProvisionAutoShipper]
    split
    · rfl
    · rename_i e hge
      have h := unwrapLoop_names remote
          { OrganizationId := targetApp.Organization.Id,
            Name := targetApp.Name ++ "-log-shipper",
            AppId := targetApp.Id, «Type» := goMapIndex AddOnTypes provider } e
      split <;> rename_i heq <;> rw [heq] at h <;>
        simpa [Call.createAddOnName] using h
  · simp only [SetNatsTokenSecret]
    split
    · rfl
    · split <;> rfl

/-- Claim C9: when the flaps client is built, the listing returns no
machines, and region discovery returns a code, the trace of
`EnsureShipperMachine` ends with a launch call whose request carries
exactly the fixed guest shape (shared CPU kind, 1 CPU, 256 MB), the pinned
image, the fixed instance name "log-shipper", the fixed metadata tags, and
the discovered region. -/
theorem ensureShipperMachine_launch_shape (remote : Remote) (shipperApp : AppData) (code : String)
    (h1 : remote.flapsNew (ToAppCompact shipperApp) = none)
    (h2 : remote.flapsList shipperApp.Name = ([], none))
    (h3 : remote.getNearestRegion = (code, none)) :
    (EnsureShipperMachine remote shipperApp).2 =
      [Call.flapsNew (ToAppCompact shipperApp), Call.flapsList shipperApp.Name,
       Call.getNearestRegion,
       Call.launch
         { Name := "log-shipper",
           Config :=
             { Guest := { CPUKind := "shared", CPUs := 1, MemoryMB := 256 },
               Image := "flyio/log-shipper:auto-a14aa63",
               Metadata := [(MachineConfigMetadataKeyFlyPlatformVersion, MachineFlyPlatformVersion2),
                            (MachineConfigMetadataKeyFlyManagedPostgres, "true"),
                            ("managed-by-fly-deploy", "true")] },
           Region := code }] := by
  simp only [EnsureShipperMachine, h1, h2, h3]
  split
  · rename_i hh
    exact absurd hh (by decide)
  · split <;> rfl

/-- Witness for claim C9 at a concrete oracle with no machines and nearest
region "sea". -/
theorem ensureShipperMachine_launch_shape_witness :
    (EnsureShipperMachine remoteNoMachines appW).2 =
      [Call.flapsNew (ToAppCompact appW), Call.flapsList "appw",
       Call.getNearestRegion,
       Call.launch
         { Name := "log-shipper",
           Config :=
             { Guest := { CPUKind := "shared", CPUs := 1, MemoryMB := 256 },
               Image := "flyio/log-shipper:auto-a14aa63",
               Metadata := [(MachineConfigMetadataKeyFlyPlatformVersion, MachineFlyPlatformVersion2),
                            (MachineConfigMetadataKeyFlyManagedPostgres, "true"),
                            ("managed-by-fly-deploy", "true")] },
           Region := "sea" }] := by
  exact ensureShipperMachine_launch_shape remoteNoMachines appW "sea" rfl rfl rfl

/-- Claim C10: when the add-on lookup error's unwrap chain contains no
`gqlerror.List`, `ProvisionAutoShipper` exhausts the unwrap loop, takes the
already-provisioned branch, and returns the token field of the failed
lookup response with a nil error; its trace is exactly the lookup, so no
create mutation is issued and no failure is reported. -/
theorem provisionAutoShipper_no_list_masks (remote : Remote) (targetApp : AppData)
    (provider : String) (e : GoError)
    (h1 : (remote.getAddOn (targetApp.Name ++ "-log-shipper")).2 = some e)
    (h2 : containsList e = false) :
    (ProvisionAutoShipper remote targetApp provider).1 =
      ((remote.getAddOn (targetApp.Name ++ "-log-shipper")).1.AddOn.Token, none) ∧
    (ProvisionAutoShipper remote targetApp provider).2 =
      [Call.getAddOn (targetApp.Name ++ "-log-shipper")] := by
  constructor <;> simp [ProvisionAutoShipper, h1, unwrapLoop_of_no_list remote e h2]

/-- Witness for claim C10 at a concrete oracle whose lookup fails with a
wrapped leaf error. -/
theorem provisionAutoShipper_no_list_masks_witness :
    (ProvisionAutoShipper remoteWrapped appW "logtail").1 = ("stale", none) ∧
    (ProvisionAutoShipper remoteWrapped appW "logtail").2 =
      [Call.getAddOn "appw-log-shipper"] := by
  have h := provisionAutoShipper_no_list_masks remoteWrapped appW "logtail"
    (GoError.wrapped "request failed" (GoError.base "timeout")) rfl rfl
  exact ⟨h.1.trans rfl, h.2.trans rfl⟩

end LogShip
